import Mathlib

/-!
The nchat session orchestrator: `main` and the `Protocol` default arguments.

A shallow embedding of `src/main.cpp` (`main`, `ShowHelp`, `ShowVersion`) and of the
default arguments declared in `src/protocol.h`.

`main` is an effectful procedure.  It is embedded as a function from an explicit
environment (everything `main` obtains from code that is not part of `main.cpp`) and an
argument vector to an `Outcome`: the list of calls `main` makes, in program order, and the
exit status it returns.  Calls that block (`Ui::Run`) are taken to return; implicit
destructor calls at scope exit are not recorded.
-/

namespace Nchat

/-! ## Data model -/

/-- The two UI implementations `main` puts in `allUis` (main.cpp 112-116). -/
inductive Ui where
  | UiDefault
  | UiLite
  deriving DecidableEq, Repr

/-- A `std::shared_ptr<Ui>`: `none` is `nullptr`. -/
abbrev UiPtr := Option Ui

/-- A protocol object held in `allProtocols`: `addr` stands for the identity of the object,
`name` is what its `GetName()` returns. -/
structure Protocol where
  addr : Nat
  name : String
  deriving DecidableEq, Repr

/-- The configuration object as `main` sees it: the function computed by `Config::Get`. -/
abbrev Config := String → String

/-- The calls `main` makes, each with its arguments. -/
inductive Event where
  | umask (mask : Nat)
  | setConfigDir (path : String)
  | stdout (text : String)
  | makedirs (dir : String)
  | dirLock (dir : String)
  | logSetPath (path : String)
  | logSetDebugEnabled (enabled : Bool)
  | initStdErrRedirect (path : String)
  | registerSignalHandler
  | logInfo (msg : String)
  | logError (msg : String)
  | configLoad (path : String) (defaults : List (String × String))
  | uiNew (u : Ui)
  | uiInit (ui : UiPtr)
  | protocolNew (p : Protocol) (ui : UiPtr) (isSetup isVerbose : Bool)
  | setupProtocol (ps : List Protocol)
  | configSave (path : String)
  | protocolStart (p : Protocol)
  | uiAddProtocol (ui : UiPtr) (p : Protocol)
  | uiRun (ui : UiPtr)
  | uiCleanup (ui : UiPtr)
  | uiRemoveProtocol (ui : UiPtr) (p : Protocol)
  | protocolStop (p : Protocol)
  | protocolsClear
  deriving DecidableEq, Repr

/-- What a run of `main` does: the calls made, in order, and the value returned. -/
structure Outcome where
  trace : List Event
  status : Int
  deriving DecidableEq, Repr

/-- Everything `main` reads from outside `main.cpp`.
* `home`: `getenv("HOME")`.
* `getConfigDir p`: what `Util::GetConfigDir()` returns once `Util::SetConfigDir(p)` was the
  last call to set it (util.h declares both, their bodies are not part of the sources).
* `pathExists d`: `apathy::Path(d).exists()`.
* `lockAcquired d`: `DirLock(d).IsLocked()`.
* `configLoad path defaults`: the `Config` built from `path` and `defaults`, as its `Get`.
* `uiName u`: `GetName()` of the UI `u`.
* `allProtocols`: the protocol objects `main` constructs, in declaration order (the source
  declares exactly one, `Telegram`; see `sourceProtocols`).
* `setupProtocol`: the value returned by `Setup::SetupProtocol`.
* `appVersion`, `os`, `compiler`: `Util::GetAppVersion()`, `Util::GetOs()`,
  `Util::GetCompiler()`. -/
structure Env where
  home : String
  getConfigDir : String → String
  pathExists : String → Bool
  lockAcquired : String → Bool
  configLoad : String → List (String × String) → Config
  uiName : Ui → String
  allProtocols : List Protocol
  setupProtocol : Config → List Protocol → Bool
  appVersion : String
  os : String
  compiler : String

/-- The protocol list exactly as main.cpp 138-141 declares it: the single `Telegram`
object, whose `GetName()` is `telegramName`. -/
def sourceProtocols (telegramName : String) : List Protocol :=
  [⟨0, telegramName⟩]

/-! ## `protocol.h`: default arguments -/

/-- Largest `std::int64_t`: `std::numeric_limits<std::int64_t>::max()`. -/
def int64Max : Int := 2 ^ 63 - 1

/-- Smallest `std::int64_t`. -/
def int64Min : Int := -(2 ^ 63)

/-- Signed 64-bit subtraction: `none` when the mathematical result is not representable
(signed overflow). -/
def int64Sub (a b : Int) : Option Int :=
  if int64Min ≤ a - b ∧ a - b ≤ int64Max then some (a - b) else none

/-- Default of `p_OffsetChat` in `Protocol::RequestChats` (protocol.h 31). -/
def RequestChats_default_OffsetChat : Int := 0

/-- Default of `p_OffsetOrder` in `Protocol::RequestChats` (protocol.h 32):
`std::numeric_limits<std::int64_t>::max() - 1`. -/
def RequestChats_default_OffsetOrder : Option Int := int64Sub int64Max 1

/-- Default of `p_ReplyId` in `Protocol::SendMessage` (protocol.h 36): `0x0`. -/
def SendMessage_default_ReplyId : Int := 0x0

/-! ## `main.cpp` -/

/-- Text written by `ShowHelp` (main.cpp 197-227). -/
def helpText : String :=
  "nchat is a minimalistic console-based chat client with support for\n" ++
  "telegram.\n" ++
  "\n" ++
  "Usage: nchat [OPTION]\n" ++
  "\n" ++
  "Command-line Options:\n" ++
  "   -d, --confdir <DIR>  use a different directory than ~/.nchat\n" ++
  "   -e, --verbose        enable verbose logging\n" ++
  "   -h, --help           display this help and exit\n" ++
  "   -s, --setup          set up chat protocol account\n" ++
  "   -v, --version        output version information and exit\n" ++
  "\n" ++
  "Interactive Commands:\n" ++
  "   Tab         next chat\n" ++
  "   Sh-Tab      previous chat\n" ++
  "   PageDn      next page\n" ++
  "   PageUp      previous page\n" ++
  "   Ctrl-e      enable/disable emoji\n" ++
  "   Ctrl-n      enable/disable msgid\n" ++
  "   Ctrl-q      exit\n" ++
  "   Ctrl-r      receive file\n" ++
  "   Ctrl-t      transfer file\n" ++
  "   Ctrl-u      next unread chat\n" ++
  "   Ctrl-x      send message\n" ++
  "\n" ++
  "Report bugs at https://github.com/d99kris/nchat\n" ++
  "\n"

/-- The one write to `std::cout` that `ShowHelp` performs. -/
def ShowHelp : List Event := [Event.stdout helpText]

/-- The one write to `std::cout` that `ShowVersion` performs (main.cpp 229-239). -/
def ShowVersion (env : Env) : List Event :=
  [Event.stdout
    ("nchat " ++ env.appVersion ++ "\n" ++
     "\n" ++
     "Copyright (c) 2019 Kristofer Berggren\n" ++
     "\n" ++
     "nchat is distributed under the MIT license.\n" ++
     "\n" ++
     "Written by Kristofer Berggren.\n")]

/-- The locals of `main` that argument handling sets, with `configDir` the argument of the
latest `Util::SetConfigDir` call. -/
structure ArgState where
  isSetup : Bool
  isVerbose : Bool
  configDir : String
  deriving DecidableEq, Repr

/-- Result of the argument loop: either `main` returned from inside the loop with a status,
or the loop ran to the end and left the state. -/
inductive ArgResult where
  | exited (status : Int)
  | parsed (st : ArgState)
  deriving DecidableEq, Repr

/-- The argument loop of main.cpp 35-65 over the remaining arguments.  The test
`std::distance(it + 1, args.end()) > 0` is `rest.length > 0`; under it `++it` moves to the
head of `rest`, so the `[]` arm of the inner match is never taken. -/
def argLoop (env : Env) : List String → ArgState → List Event × ArgResult
  | [], st => ([], ArgResult.parsed st)
  | a :: rest, st =>
    if (a = "-d" ∨ a = "--configdir") ∧ rest.length > 0 then
      match rest with
      | d :: rest2 =>
        let r := argLoop env rest2 { st with configDir := d }
        (Event.setConfigDir d :: r.1, r.2)
      | [] => ([], ArgResult.parsed st)
    else if a = "-s" ∨ a = "--setup" then
      argLoop env rest { st with isSetup := true }
    else if a = "-h" ∨ a = "--help" then
      (ShowHelp, ArgResult.exited 0)
    else if a = "-e" ∨ a = "--verbose" then
      argLoop env rest { st with isVerbose := true }
    else if a = "-v" ∨ a = "--version" then
      (ShowVersion env, ArgResult.exited 0)
    else
      (ShowHelp, ArgResult.exited 1)

/-- The `defaultConfig` map of main.cpp 100-104. -/
def defaultConfig : List (String × String) :=
  [("telegram_is_enabled", "0"), ("ui", "uidefault")]

/-- The `allUis` vector of main.cpp 112-116. -/
def allUis : List Ui := [Ui.UiDefault, Ui.UiLite]

/-- The UI selection loop of main.cpp 118-124: every match overwrites `ui`. -/
def selectUi (config : Config) (uiName : Ui → String) : List Ui → UiPtr → UiPtr
  | [], ui => ui
  | u :: rest, ui =>
    selectUi config uiName rest (if config "ui" = uiName u then some u else ui)

/-- ASCII `::tolower` applied to every character of the string (main.cpp 181). -/
def toLower (s : String) : String := ⟨s.data.map Char.toLower⟩

/-- The start loop of main.cpp 156-164. -/
def startLoop (config : Config) (ui : UiPtr) : List Protocol → List Event
  | [] => []
  | p :: rest =>
    let param := p.name ++ "_is_enabled"
    (if config param = "1" then [Event.protocolStart p, Event.uiAddProtocol ui p] else [])
      ++ startLoop config ui rest

/-- The stop loop of main.cpp 178-187. -/
def stopLoop (config : Config) (ui : UiPtr) : List Protocol → List Event
  | [] => []
  | p :: rest =>
    let param := toLower (p.name ++ "_is_enabled")
    (if config param = "1" then [Event.uiRemoveProtocol ui p, Event.protocolStop p] else [])
      ++ stopLoop config ui rest

/-- Put the calls already made in front of the calls of the rest of the run. -/
def Outcome.after (pre : List Event) (o : Outcome) : Outcome :=
  ⟨pre ++ o.trace, o.status⟩

/-- Conversion of the `bool` returned at main.cpp 152 to the `int` result of `main`. -/
def boolToInt (b : Bool) : Int := if b then 1 else 0

/-- Lines 137-195 of main.cpp: construct the protocols, then either the setup branch or
the start loop, the UI run loop, the save, the cleanup and the stop loop. -/
def runProtocols (env : Env) (st : ArgState) (config : Config) (configPath : String)
    (ui : UiPtr) : Outcome :=
  let construct := env.allProtocols.map (fun p => Event.protocolNew p ui st.isSetup st.isVerbose)
  if st.isSetup then
    let rv := env.setupProtocol config env.allProtocols
    ⟨construct ++ [Event.setupProtocol env.allProtocols] ++
      (if rv then [Event.stdout ("Saving to " ++ configPath ++ "\n"), Event.configSave configPath]
       else []),
     boolToInt rv⟩
  else
    ⟨construct ++ startLoop config ui env.allProtocols ++
      [Event.uiRun ui, Event.configSave configPath] ++
      (if ui.isSome then [Event.uiCleanup ui] else []) ++
      stopLoop config ui env.allProtocols ++
      [Event.protocolsClear, Event.logInfo "exiting"],
     0⟩

/-- Lines 108-135 of main.cpp, followed by the rest of `main`: outside setup mode build the
UIs, select one by the `ui` key and initialise it, or log an error and return 1. -/
def initUi (env : Env) (st : ArgState) (config : Config) (configPath : String) : Outcome :=
  if !st.isSetup then
    let ui := selectUi config env.uiName allUis none
    if ui.isSome then
      (runProtocols env st config configPath ui).after
        (allUis.map Event.uiNew ++ [Event.uiInit ui])
    else
      ⟨allUis.map Event.uiNew ++
        [Event.logError ("failed loading ui \"" ++ config "ui" ++ "\"")], 1⟩
  else
    runProtocols env st config configPath none

/-- The two-line message written to `std::cout` when the lock is not acquired
(main.cpp 77-79). -/
def lockErrorText (dir : String) : String :=
  "error: unable to acquire lock for " ++ dir ++ "\n" ++
  "       only one nchat session per config dir is supported.\n"

/-- Lines 67-106 of main.cpp, followed by the rest of `main`. -/
def afterArgs (env : Env) (st : ArgState) : Outcome :=
  let dir := env.getConfigDir st.configDir
  let mk := if !env.pathExists dir then [Event.makedirs dir] else []
  if !env.lockAcquired dir then
    ⟨mk ++ [Event.dirLock dir, Event.stdout (lockErrorText dir)], 1⟩
  else
    let logPath := dir ++ "main.log"
    let configPath := dir ++ "main.conf"
    let config := env.configLoad configPath defaultConfig
    (initUi env st config configPath).after
      (mk ++
       [Event.dirLock dir,
        Event.logSetPath logPath,
        Event.logSetDebugEnabled st.isVerbose,
        Event.initStdErrRedirect logPath,
        Event.registerSignalHandler,
        Event.logInfo ("starting nchat " ++ env.appVersion),
        Event.logInfo ("using " ++ env.os ++ "/" ++ env.compiler),
        Event.configLoad configPath defaultConfig])

/-- State of the locals when the argument loop is entered (main.cpp 27-33): the config
directory was set to `$HOME/.nchat`. -/
def initialArgState (env : Env) : ArgState :=
  { isSetup := false, isVerbose := false, configDir := env.home ++ "/.nchat" }

/-- The calls of main.cpp 28-29; `S_IRWXG | S_IRWXO` is octal 077. -/
def defaults (env : Env) : List Event :=
  [Event.umask 0o77, Event.setConfigDir (env.home ++ "/.nchat")]

/-- The function `main` of main.cpp, on the arguments `argv[1..]`. -/
def main (env : Env) (args : List String) : Outcome :=
  match argLoop env args (initialArgState env) with
  | (t, ArgResult.exited status) => ⟨defaults env ++ t, status⟩
  | (t, ArgResult.parsed st) => (afterArgs env st).after (defaults env ++ t)

/-! ## Concrete environments -/

/-- A store holding `ui` and one enablement key, everything else empty. -/
def sampleConfig (uiValue key value : String) : Config :=
  fun k => if k = "ui" then uiValue else if k = key then value else ""

/-- An environment with the given lock result, store, protocols and setup result; the UI
names are `uidefault` and `uilite`, the config directory getter appends a slash. -/
def sampleEnv (locked : Bool) (config : Config) (ps : List Protocol) (setupOk : Bool) : Env :=
  { home := "/home/u"
    getConfigDir := fun p => p ++ "/"
    pathExists := fun _ => true
    lockAcquired := fun _ => locked
    configLoad := fun _ _ => config
    uiName := fun u => match u with
      | Ui.UiDefault => "uidefault"
      | Ui.UiLite => "uilite"
    allProtocols := ps
    setupProtocol := fun _ _ => setupOk
    appVersion := "1.0"
    os := "Linux"
    compiler := "gcc"  }

/-! ## Observations on a run -/

/-- The argument state left by the argument loop, when `main` did not return from it. -/
def parsedState (env : Env) (args : List String) : Option ArgState :=
  match (argLoop env args (initialArgState env)).2 with
  | ArgResult.parsed st => some st
  | ArgResult.exited _ => none

/-- The config directory the session works in: `Util::GetConfigDir()` after the loop. -/
def sessionDir (env : Env) (st : ArgState) : String :=
  env.getConfigDir st.configDir

/-- The `configPath` of main.cpp 105. -/
def sessionConfigPath (env : Env) (st : ArgState) : String :=
  sessionDir env st ++ "main.conf"

/-- The `config` object of main.cpp 106. -/
def sessionConfig (env : Env) (st : ArgState) : Config :=
  env.configLoad (sessionConfigPath env st) defaultConfig

/-- Some UI of `allUis` is named as the `ui` key says. -/
def UiMatched (env : Env) (st : ArgState) : Prop :=
  ∃ u ∈ allUis, env.uiName u = sessionConfig env st "ui"

/-- The calls that `main` makes only past the lock check: everything except `umask`,
`Util::SetConfigDir`, writes to `std::cout`, `makedirs` and the `DirLock` constructor. -/
def Event.isSessionEffect : Event → Bool
  | Event.umask _ => false
  | Event.setConfigDir _ => false
  | Event.stdout _ => false
  | Event.makedirs _ => false
  | Event.dirLock _ => false
  | _ => true

/-- A write to `std::cout`. -/
def Event.isStdout : Event → Bool
  | Event.stdout _ => true
  | _ => false

/-- A call to `Config::Save`. -/
def Event.isConfigSave : Event → Bool
  | Event.configSave _ => true
  | _ => false

/-- A call that activates logging: `Log::SetPath` or `Util::InitStdErrRedirect`. -/
def Event.activatesLogging : Event → Bool
  | Event.logSetPath _ => true
  | Event.initStdErrRedirect _ => true
  | _ => false

/-- A UI object being built or a call on a UI (`Init`, `AddProtocol`, `Run`, `Cleanup`,
`RemoveProtocol`). -/
def Event.isUiCall : Event → Bool
  | Event.uiNew _ => true
  | Event.uiInit _ => true
  | Event.uiAddProtocol _ _ => true
  | Event.uiRun _ => true
  | Event.uiCleanup _ => true
  | Event.uiRemoveProtocol _ _ => true
  | _ => false

/-- A protocol being constructed. -/
def Event.isProtocolNew : Event → Bool
  | Event.protocolNew _ _ _ _ => true
  | _ => false

/-- A `Start` call on a protocol. -/
def Event.isProtocolStart : Event → Bool
  | Event.protocolStart _ => true
  | _ => false

/-- A call of the running phase: `Start`, `AddProtocol`, `Run`, `Save`, `Cleanup`,
`RemoveProtocol`, `Stop`. -/
def Event.isRunPhase : Event → Bool
  | Event.protocolStart _ => true
  | Event.uiAddProtocol _ _ => true
  | Event.uiRun _ => true
  | Event.configSave _ => true
  | Event.uiCleanup _ => true
  | Event.uiRemoveProtocol _ _ => true
  | Event.protocolStop _ => true
  | _ => false

/-- The two lifecycle calls `main` makes on a protocol. -/
inductive Lifecycle where
  | Start
  | Stop
  deriving DecidableEq, Repr

/-- The lifecycle call on protocol `p` that an event is, if any. -/
def lifecycleOf (p : Protocol) : Event → Option Lifecycle
  | Event.protocolStart q => if q = p then some Lifecycle.Start else none
  | Event.protocolStop q => if q = p then some Lifecycle.Stop else none
  | _ => none

/-- The sequence of lifecycle calls that protocol `p` receives in a trace. -/
def lifecycleCalls (p : Protocol) (t : List Event) : List Lifecycle :=
  t.filterMap (lifecycleOf p)

/-- The texts written to `std::cout`, in order. -/
def stdoutTexts : List Event → List String
  | [] => []
  | Event.stdout s :: t => s :: stdoutTexts t
  | _ :: t => stdoutTexts t

/-- Number of lines of a text: its newline characters. -/
def lineCount (s : String) : Nat :=
  s.data.countP (fun c => c = Char.ofNat 10)

/-- The texts written to `std::cout` before the first call that activates logging. -/
def terminalDiagnostics (t : List Event) : List String :=
  stdoutTexts (t.takeWhile (fun e => !e.activatesLogging))

/-- `Start` immediately followed by `AddProtocol` of the same protocol, for each protocol of
the list in order. -/
def startPairs (ui : UiPtr) : List Protocol → List Event
  | [] => []
  | p :: ps => Event.protocolStart p :: Event.uiAddProtocol ui p :: startPairs ui ps

/-- `RemoveProtocol` immediately followed by `Stop` of the same protocol, for each protocol
of the list in order. -/
def stopPairs (ui : UiPtr) : List Protocol → List Event
  | [] => []
  | p :: ps => Event.uiRemoveProtocol ui p :: Event.protocolStop p :: stopPairs ui ps

/-- The calls between the lock check and the UI block (main.cpp 83-106). -/
def sessionStart (env : Env) (st : ArgState) : List Event :=
  [Event.dirLock (sessionDir env st),
   Event.logSetPath (sessionDir env st ++ "main.log"),
   Event.logSetDebugEnabled st.isVerbose,
   Event.initStdErrRedirect (sessionDir env st ++ "main.log"),
   Event.registerSignalHandler,
   Event.logInfo ("starting nchat " ++ env.appVersion),
   Event.logInfo ("using " ++ env.os ++ "/" ++ env.compiler),
   Event.configLoad (sessionConfigPath env st) defaultConfig]

/-- The calls of a normal run up to the start loop: defaults, argument handling, directory,
lock, logging, signal handler, config load, UI construction and `Init`, protocol
construction. -/
def runPrelude (env : Env) (args : List String) (st : ArgState) (u : Ui) : List Event :=
  (defaults env ++ (argLoop env args (initialArgState env)).1) ++
    (((if !env.pathExists (sessionDir env st) then [Event.makedirs (sessionDir env st)]
        else []) ++ sessionStart env st) ++
     ((allUis.map Event.uiNew ++ [Event.uiInit (some u)]) ++
      env.allProtocols.map (fun p => Event.protocolNew p (some u) false st.isVerbose)))

/-! ## Lemmas on the pieces of `main` -/

theorem argLoop_parsed_events_aux (env : Env) (n : Nat) :
    ∀ (args : List String), args.length ≤ n → ∀ (st0 st : ArgState) (t : List Event),
      argLoop env args st0 = (t, ArgResult.parsed st) →
      ∀ e ∈ t, ∃ d, e = Event.setConfigDir d := by
  induction n with
  | zero =>
    intro args hn st0 st t h
    have : args = [] := List.length_eq_zero.mp (Nat.le_zero.mp hn)
    subst this
    simp [argLoop] at h
    intro e he
    rw [h.1] at he
    simp at he
  | succ n ih =>
    intro args hn st0 st t h
    cases args with
    | nil =>
      simp [argLoop] at h
      intro e he
      rw [h.1] at he
      simp at he
    | cons a rest =>
      have hr : rest.length ≤ n := by simpa using hn
      unfold argLoop at h
      split at h
      · cases rest with
        | nil => rename_i hc; simp at hc
        | cons d rest2 =>
          simp only [Prod.mk.injEq] at h
          obtain ⟨h1, h2⟩ := h
          have hr2 : rest2.length ≤ n := by simp at hr; omega
          have ih2 := ih rest2 hr2 { st0 with configDir := d } st
            (argLoop env rest2 { st0 with configDir := d }).1 (by rw [← h2])
          intro e he
          rw [← h1] at he
          rcases List.mem_cons.mp he with rfl | he
          · exact ⟨d, rfl⟩
          · exact ih2 e he
      · split at h
        · exact ih rest hr _ st t h
        · split at h
          · simp at h
          · split at h
            · exact ih rest hr _ st t h
            · split at h <;> simp at h

theorem argLoop_parsed_events (env : Env) (args : List String) (st0 st : ArgState)
    (t : List Event) (h : argLoop env args st0 = (t, ArgResult.parsed st)) :
    ∀ e ∈ t, ∃ d, e = Event.setConfigDir d :=
  argLoop_parsed_events_aux env args.length args (Nat.le_refl _) st0 st t h

theorem main_of_parsed (env : Env) (args : List String) (st : ArgState)
    (h : parsedState env args = some st) :
    main env args =
      (afterArgs env st).after (defaults env ++ (argLoop env args (initialArgState env)).1) := by
  unfold parsedState at h
  unfold main
  rcases hr : argLoop env args (initialArgState env) with ⟨t, r⟩
  rw [hr] at h
  cases r with
  | exited c => simp at h
  | parsed s => simp at h; subst h; rfl

theorem parsed_events (env : Env) (args : List String) (st : ArgState)
    (h : parsedState env args = some st) :
    ∀ e ∈ (argLoop env args (initialArgState env)).1, ∃ d, e = Event.setConfigDir d := by
  unfold parsedState at h
  rcases hr : argLoop env args (initialArgState env) with ⟨t, r⟩
  rw [hr] at h
  cases r with
  | exited c => simp at h
  | parsed s => exact argLoop_parsed_events env args _ s t hr

theorem afterArgs_unlocked (env : Env) (st : ArgState)
    (hlock : env.lockAcquired (sessionDir env st) = false) :
    afterArgs env st =
      ⟨(if !env.pathExists (sessionDir env st) then [Event.makedirs (sessionDir env st)] else [])
        ++ [Event.dirLock (sessionDir env st), Event.stdout (lockErrorText (sessionDir env st))],
       1⟩ := by
  unfold sessionDir at hlock ⊢
  simp [afterArgs, hlock]

theorem afterArgs_locked (env : Env) (st : ArgState)
    (hlock : env.lockAcquired (sessionDir env st) = true) :
    afterArgs env st =
      (initUi env st (sessionConfig env st) (sessionConfigPath env st)).after
        ((if !env.pathExists (sessionDir env st) then [Event.makedirs (sessionDir env st)] else [])
          ++ sessionStart env st) := by
  unfold sessionDir at hlock
  simp [afterArgs, hlock, sessionStart, sessionConfig, sessionConfigPath, sessionDir]

theorem lock_failure_aux (env : Env) (args : List String)
    (st : ArgState) (hparse : parsedState env args = some st)
    (hlock : env.lockAcquired (sessionDir env st) = false) :
    (main env args).status = 1 ∧
      ∀ e ∈ (main env args).trace, e.isSessionEffect = false := by
  rw [main_of_parsed env args st hparse, afterArgs_unlocked env st hlock]
  refine ⟨rfl, ?_⟩
  intro e he
  simp only [Outcome.after, defaults, List.mem_append, List.mem_cons, List.mem_singleton,
    List.not_mem_nil, or_false] at he
  rcases he with ((rfl | rfl) | he) | he | rfl | rfl
  · rfl
  · rfl
  · obtain ⟨d, rfl⟩ := parsed_events env args st hparse e he
    rfl
  · split at he
    · simp at he; subst he; rfl
    · simp at he
  · rfl
  · rfl

/-- C2: when the argument loop runs to its end and the directory lock is not acquired,
`main` returns 1 and every call it made is one of `umask`, `Util::SetConfigDir`, a write to
`std::cout`, `makedirs` or the `DirLock` constructor: no log path or stderr redirection, no
signal handler, no config load or save, no UI and no protocol construction or start. -/
theorem lock_failure_returns_before_session_effects (env : Env) (args : List String)
    (st : ArgState) (hparse : parsedState env args = some st)
    (hlock : env.lockAcquired (sessionDir env st) = false) :
    (main env args).status = 1 ∧
      ∀ e ∈ (main env args).trace, e.isSessionEffect = false :=
  lock_failure_aux env args st hparse hlock

theorem lock_failure_returns_before_session_effects_witness :
    (main (sampleEnv false (sampleConfig "uidefault" "telegram_is_enabled" "1")
        (sourceProtocols "telegram") true) ["-e"]).status = 1 ∧
      ∀ e ∈ (main (sampleEnv false (sampleConfig "uidefault" "telegram_is_enabled" "1")
        (sourceProtocols "telegram") true) ["-e"]).trace, e.isSessionEffect = false :=
  lock_failure_returns_before_session_effects
    (sampleEnv false (sampleConfig "uidefault" "telegram_is_enabled" "1")
      (sourceProtocols "telegram") true)
    ["-e"] ⟨false, true, "/home/u/.nchat"⟩ (by decide) (by decide)

/-- C9: the default cursor of `Protocol::RequestChats` is `(0, 2^63 - 2)`: the default of
`p_OffsetChat` is 0, the default of `p_OffsetOrder` is the largest signed 64-bit integer
minus one, 9223372036854775806, a subtraction that does not overflow; and the default
`p_ReplyId` of `Protocol::SendMessage` is 0. -/
theorem default_arguments :
    RequestChats_default_OffsetChat = 0 ∧
      RequestChats_default_OffsetOrder = some 9223372036854775806 ∧
      RequestChats_default_OffsetOrder = some (int64Max - 1) ∧
      (9223372036854775806 : Int) = 2 ^ 63 - 2 ∧
      SendMessage_default_ReplyId = 0 := by
  refine ⟨rfl, ?_, ?_, ?_, rfl⟩
  · decide
  · decide
  · decide

/-- C7 (evaluation of the code): for every environment and directory, the arguments
`--confdir DIR` make `main` print the help text and return 1 straight from the argument
loop, the only `Util::SetConfigDir` call being the default one; whereas `-d DIR` and
`--configdir DIR` both pass the loop with the config directory set to `DIR`. -/
theorem confdir_long_option_rejected (env : Env) (dir : String) :
    main env ["--confdir", dir] = ⟨defaults env ++ ShowHelp, 1⟩ ∧
      (main env ["--confdir", dir]).trace =
        [Event.umask 0o77, Event.setConfigDir (env.home ++ "/.nchat"), Event.stdout helpText] ∧
      parsedState env ["--confdir", dir] = none ∧
      parsedState env ["-d", dir] = some { initialArgState env with configDir := dir } ∧
      parsedState env ["--configdir", dir] =
        some { initialArgState env with configDir := dir } := by
  have h1 : argLoop env ["--confdir", dir] (initialArgState env) =
      (ShowHelp, ArgResult.exited 1) := by
    simp [argLoop]
  have h2 : argLoop env ["-d", dir] (initialArgState env) =
      ([Event.setConfigDir dir], ArgResult.parsed { initialArgState env with configDir := dir }) := by
    simp [argLoop]
  have h3 : argLoop env ["--configdir", dir] (initialArgState env) =
      ([Event.setConfigDir dir], ArgResult.parsed { initialArgState env with configDir := dir }) := by
    simp [argLoop]
  refine ⟨?_, ?_, ?_, ?_, ?_⟩
  · simp [main, h1]
  · simp [main, h1, defaults, ShowHelp]
  · simp [parsedState, h1]
  · simp [parsedState, h2]
  · simp [parsedState, h3]

/-- C3 (evaluation of the code): in setup mode with the lock acquired, `main` returns 1
when `Setup::SetupProtocol` returns true and 0 when it returns false. -/
theorem setup_status_is_setup_result :
    (main (sampleEnv true (sampleConfig "uidefault" "telegram_is_enabled" "0")
        (sourceProtocols "telegram") true) ["-s"]).status = 1 ∧
    (main (sampleEnv true (sampleConfig "uidefault" "telegram_is_enabled" "0")
        (sourceProtocols "telegram") false) ["-s"]).status = 0 ∧
    (main (sampleEnv true (sampleConfig "uidefault" "telegram_is_enabled" "0")
        (sourceProtocols "telegram") true) ["--setup"]).status = 1 ∧
    (main (sampleEnv true (sampleConfig "uidefault" "telegram_is_enabled" "0")
        (sourceProtocols "telegram") false) ["--setup"]).status = 0 := by
  refine ⟨?_, ?_, ?_, ?_⟩
  · decide
  · decide
  · decide
  · decide

theorem initUi_setup (env : Env) (st : ArgState) (config : Config) (path : String)
    (hsetup : st.isSetup = true) :
    initUi env st config path =
      ⟨env.allProtocols.map (fun p => Event.protocolNew p none true st.isVerbose) ++
        [Event.setupProtocol env.allProtocols] ++
        (if env.setupProtocol config env.allProtocols then
          [Event.stdout ("Saving to " ++ path ++ "\n"), Event.configSave path] else []),
       boolToInt (env.setupProtocol config env.allProtocols)⟩ := by
  simp [initUi, runProtocols, hsetup]

theorem main_setup (env : Env) (args : List String) (st : ArgState)
    (hparse : parsedState env args = some st)
    (hlock : env.lockAcquired (sessionDir env st) = true) (hsetup : st.isSetup = true) :
    main env args =
      ⟨(defaults env ++ (argLoop env args (initialArgState env)).1) ++
        (((if !env.pathExists (sessionDir env st) then [Event.makedirs (sessionDir env st)]
            else []) ++ sessionStart env st) ++
         (env.allProtocols.map (fun p => Event.protocolNew p none true st.isVerbose) ++
          [Event.setupProtocol env.allProtocols] ++
          (if env.setupProtocol (sessionConfig env st) env.allProtocols then
            [Event.stdout ("Saving to " ++ sessionConfigPath env st ++ "\n"),
             Event.configSave (sessionConfigPath env st)] else []))),
       boolToInt (env.setupProtocol (sessionConfig env st) env.allProtocols)⟩ := by
  rw [main_of_parsed env args st hparse, afterArgs_locked env st hlock,
    initUi_setup env st _ _ hsetup]
  rfl

theorem countP_parsed_events (env : Env) (args : List String) (st : ArgState)
    (hparse : parsedState env args = some st) (f : Event → Bool)
    (hf : ∀ d, f (Event.setConfigDir d) = false) :
    (argLoop env args (initialArgState env)).1.countP f = 0 := by
  rw [List.countP_eq_zero]
  intro e he
  obtain ⟨d, rfl⟩ := parsed_events env args st hparse e he
  simp [hf d]

/-- C4: in setup mode with the lock acquired, `Config::Save` is called exactly once when
`Setup::SetupProtocol` returns true and never when it returns false; in both cases `main`
builds, initialises and runs no UI, registers no protocol with a UI, calls `Start` on no
protocol, and hands the null UI pointer to every protocol it constructs. -/
theorem setup_mode_saves_iff_setup_succeeds (env : Env) (args : List String) (st : ArgState)
    (hparse : parsedState env args = some st)
    (hlock : env.lockAcquired (sessionDir env st) = true) (hsetup : st.isSetup = true) :
    (main env args).trace.countP Event.isConfigSave =
        (if env.setupProtocol (sessionConfig env st) env.allProtocols = true then 1 else 0) ∧
      (∀ e ∈ (main env args).trace, e.isUiCall = false ∧ e.isProtocolStart = false) ∧
      (∀ p ui s v, Event.protocolNew p ui s v ∈ (main env args).trace → ui = none) := by
  rw [main_setup env args st hparse hlock hsetup]
  refine ⟨?_, ?_, ?_⟩
  · simp only [List.countP_append, defaults, sessionStart]
    rw [countP_parsed_events env args st hparse _ (fun _ => rfl)]
    have hmap : (env.allProtocols.map
        (fun p => Event.protocolNew p none true st.isVerbose)).countP Event.isConfigSave = 0 := by
      rw [List.countP_eq_zero]
      intro e he
      obtain ⟨p, _, rfl⟩ := List.mem_map.mp he
      simp [Event.isConfigSave]
    rw [hmap]
    cases env.setupProtocol (sessionConfig env st) env.allProtocols <;>
      cases env.pathExists (sessionDir env st) <;>
      simp [Event.isConfigSave, List.countP_cons]
  · intro e he
    simp only [List.mem_append, defaults, sessionStart, List.mem_cons, List.mem_singleton,
      List.not_mem_nil, or_false, List.mem_map] at he
    rcases he with ((rfl | rfl) | he) | (he | he) | (he | rfl) | he
    · exact ⟨rfl, rfl⟩
    · exact ⟨rfl, rfl⟩
    · obtain ⟨d, rfl⟩ := parsed_events env args st hparse e he
      exact ⟨rfl, rfl⟩
    · split at he
      · simp at he; subst he; exact ⟨rfl, rfl⟩
      · simp at he
    · rcases he with rfl | rfl | rfl | rfl | rfl | rfl | rfl | rfl <;> exact ⟨rfl, rfl⟩
    · obtain ⟨p, _, rfl⟩ := he
      exact ⟨rfl, rfl⟩
    · exact ⟨rfl, rfl⟩
    · split at he
      · simp at he; rcases he with rfl | rfl <;> exact ⟨rfl, rfl⟩
      · simp at he
  · intro p ui s v he
    simp only [List.mem_append, defaults, sessionStart, List.mem_cons, List.mem_singleton,
      List.not_mem_nil, or_false, List.mem_map] at he
    rcases he with ((he | he) | he) | (he | he) | (he | he) | he
    · cases he
    · cases he
    · obtain ⟨d, hd⟩ := parsed_events env args st hparse _ he
      cases hd
    · split at he
      · simp at he
      · simp at he
    · simp at he
    · obtain ⟨q, _, hq⟩ := he
      cases hq
      rfl
    · cases he
    · split at he
      · simp at he
      · simp at he

theorem setup_mode_saves_iff_setup_succeeds_witness :
    (main (sampleEnv true (sampleConfig "uidefault" "telegram_is_enabled" "0")
        (sourceProtocols "telegram") true) ["-s"]).trace.countP Event.isConfigSave = 1 ∧
    (main (sampleEnv true (sampleConfig "uidefault" "telegram_is_enabled" "0")
        (sourceProtocols "telegram") false) ["-s"]).trace.countP Event.isConfigSave = 0 :=
  ⟨(setup_mode_saves_iff_setup_succeeds
      (sampleEnv true (sampleConfig "uidefault" "telegram_is_enabled" "0")
        (sourceProtocols "telegram") true)
      ["-s"] ⟨true, false, "/home/u/.nchat"⟩ (by decide) (by decide) (by decide)).1,
   (setup_mode_saves_iff_setup_succeeds
      (sampleEnv true (sampleConfig "uidefault" "telegram_is_enabled" "0")
        (sourceProtocols "telegram") false)
      ["-s"] ⟨true, false, "/home/u/.nchat"⟩ (by decide) (by decide) (by decide)).1⟩

theorem selectUi_allUis (config : Config) (uiName : Ui → String) :
    selectUi config uiName allUis none =
      if config "ui" = uiName Ui.UiLite then some Ui.UiLite
      else if config "ui" = uiName Ui.UiDefault then some Ui.UiDefault
      else none := by
  simp only [selectUi, allUis]

theorem selectUi_matched (env : Env) (st : ArgState) (h : UiMatched env st) :
    ∃ u, selectUi (sessionConfig env st) env.uiName allUis none = some u ∧
      env.uiName u = sessionConfig env st "ui" := by
  rw [selectUi_allUis]
  obtain ⟨u, _, hu⟩ := h
  by_cases h1 : sessionConfig env st "ui" = env.uiName Ui.UiLite
  · exact ⟨Ui.UiLite, by rw [if_pos h1], h1.symm⟩
  · by_cases h2 : sessionConfig env st "ui" = env.uiName Ui.UiDefault
    · exact ⟨Ui.UiDefault, by rw [if_neg h1, if_pos h2], h2.symm⟩
    · cases u
      · exact absurd hu.symm h2
      · exact absurd hu.symm h1

theorem selectUi_unmatched (env : Env) (st : ArgState) (h : ¬ UiMatched env st) :
    selectUi (sessionConfig env st) env.uiName allUis none = none := by
  rw [selectUi_allUis]
  have h1 : ¬ sessionConfig env st "ui" = env.uiName Ui.UiLite :=
    fun e => h ⟨Ui.UiLite, by simp [allUis], e.symm⟩
  have h2 : ¬ sessionConfig env st "ui" = env.uiName Ui.UiDefault :=
    fun e => h ⟨Ui.UiDefault, by simp [allUis], e.symm⟩
  simp [h1, h2]

theorem startLoop_eq_startPairs (config : Config) (ui : UiPtr) (ps : List Protocol) :
    startLoop config ui ps =
      startPairs ui (ps.filter (fun p => decide (config (p.name ++ "_is_enabled") = "1"))) := by
  induction ps with
  | nil => rfl
  | cons p ps ih =>
    by_cases h : config (p.name ++ "_is_enabled") = "1"
    · simp [startLoop, startPairs, List.filter_cons, h, ih]
    · simp [startLoop, startPairs, List.filter_cons, h, ih]

theorem stopLoop_eq_stopPairs (config : Config) (ui : UiPtr) (ps : List Protocol) :
    stopLoop config ui ps =
      stopPairs ui
        (ps.filter (fun p => decide (config (toLower (p.name ++ "_is_enabled")) = "1"))) := by
  induction ps with
  | nil => rfl
  | cons p ps ih =>
    by_cases h : config (toLower (p.name ++ "_is_enabled")) = "1"
    · simp [stopLoop, stopPairs, List.filter_cons, h, ih]
    · simp [stopLoop, stopPairs, List.filter_cons, h, ih]

theorem main_unmatched (env : Env) (args : List String) (st : ArgState)
    (hparse : parsedState env args = some st)
    (hlock : env.lockAcquired (sessionDir env st) = true) (hsetup : st.isSetup = false)
    (hui : ¬ UiMatched env st) :
    main env args =
      ⟨(defaults env ++ (argLoop env args (initialArgState env)).1) ++
        (((if !env.pathExists (sessionDir env st) then [Event.makedirs (sessionDir env st)]
            else []) ++ sessionStart env st) ++
         (allUis.map Event.uiNew ++
          [Event.logError ("failed loading ui \"" ++ sessionConfig env st "ui" ++ "\"")])),
       1⟩ := by
  rw [main_of_parsed env args st hparse, afterArgs_locked env st hlock]
  simp only [initUi, hsetup, selectUi_unmatched env st hui]
  rfl

theorem main_normal (env : Env) (args : List String) (st : ArgState)
    (hparse : parsedState env args = some st)
    (hlock : env.lockAcquired (sessionDir env st) = true) (hsetup : st.isSetup = false)
    (u : Ui) (hu : selectUi (sessionConfig env st) env.uiName allUis none = some u) :
    main env args =
      ⟨runPrelude env args st u ++
        startLoop (sessionConfig env st) (some u) env.allProtocols ++
        [Event.uiRun (some u), Event.configSave (sessionConfigPath env st),
         Event.uiCleanup (some u)] ++
        stopLoop (sessionConfig env st) (some u) env.allProtocols ++
        [Event.protocolsClear, Event.logInfo "exiting"],
       0⟩ := by
  rw [main_of_parsed env args st hparse, afterArgs_locked env st hlock]
  simp only [initUi, hsetup, hu, runProtocols, runPrelude, Outcome.after]
  simp

theorem runPrelude_no_runPhase (env : Env) (args : List String) (st : ArgState)
    (hparse : parsedState env args = some st) (u : Ui) (p : Protocol) :
    ∀ e ∈ runPrelude env args st u, e.isRunPhase = false ∧ lifecycleOf p e = none := by
  intro e he
  simp only [runPrelude, List.mem_append, defaults, sessionStart, List.mem_cons,
    List.mem_singleton, List.not_mem_nil, or_false, List.mem_map, allUis] at he
  rcases he with ((rfl | rfl) | he) | (he | he) | (he | rfl) | he
  · exact ⟨rfl, rfl⟩
  · exact ⟨rfl, rfl⟩
  · obtain ⟨d, rfl⟩ := parsed_events env args st hparse e he
    exact ⟨rfl, rfl⟩
  · split at he
    · simp at he; subst he; exact ⟨rfl, rfl⟩
    · simp at he
  · rcases he with rfl | rfl | rfl | rfl | rfl | rfl | rfl | rfl <;> exact ⟨rfl, rfl⟩
  · obtain ⟨x, _, rfl⟩ := he
    exact ⟨rfl, rfl⟩
  · exact ⟨rfl, rfl⟩
  · obtain ⟨q, _, rfl⟩ := he
    exact ⟨rfl, rfl⟩

theorem mem_startLoop (config : Config) (ui : UiPtr) (ps : List Protocol) (e : Event)
    (he : e ∈ startLoop config ui ps) :
    (∃ p, e = Event.protocolStart p) ∨ (∃ p, e = Event.uiAddProtocol ui p) := by
  induction ps with
  | nil => simp [startLoop] at he
  | cons p ps ih =>
    simp only [startLoop, List.mem_append] at he
    rcases he with he | he
    · split at he
      · simp at he
        rcases he with rfl | rfl
        · exact Or.inl ⟨p, rfl⟩
        · exact Or.inr ⟨p, rfl⟩
      · simp at he
    · exact ih he

theorem mem_stopLoop (config : Config) (ui : UiPtr) (ps : List Protocol) (e : Event)
    (he : e ∈ stopLoop config ui ps) :
    (∃ p, e = Event.uiRemoveProtocol ui p) ∨ (∃ p, e = Event.protocolStop p) := by
  induction ps with
  | nil => simp [stopLoop] at he
  | cons p ps ih =>
    simp only [stopLoop, List.mem_append] at he
    rcases he with he | he
    · split at he
      · simp at he
        rcases he with rfl | rfl
        · exact Or.inl ⟨p, rfl⟩
        · exact Or.inr ⟨p, rfl⟩
      · simp at he
    · exact ih he

/-- C5: outside setup mode with the lock acquired: when neither `UiDefault` nor `UiLite` is
named as `config.Get("ui")` says, `main` returns 1 having constructed no protocol and made
no call of the running phase (no `Start`, no `AddProtocol`, no `Run`, no `Save`, no
`Cleanup`, no `RemoveProtocol`, no `Stop`) and no `Init`; otherwise there is a UI `u` whose
name equals `config.Get("ui")` on which both `Init` and `Run` are called, and every `Init`
and every `Run` in the run is a call on `u`. -/
theorem ui_selected_by_name_or_fatal (env : Env) (args : List String) (st : ArgState)
    (hparse : parsedState env args = some st)
    (hlock : env.lockAcquired (sessionDir env st) = true) (hsetup : st.isSetup = false) :
    (¬ UiMatched env st →
      (main env args).status = 1 ∧
        ∀ e ∈ (main env args).trace,
          e.isProtocolNew = false ∧ e.isRunPhase = false ∧ ∀ ui, e ≠ Event.uiInit ui) ∧
    (UiMatched env st →
      ∃ u, env.uiName u = sessionConfig env st "ui" ∧
        Event.uiInit (some u) ∈ (main env args).trace ∧
        Event.uiRun (some u) ∈ (main env args).trace ∧
        ∀ ui, (Event.uiInit ui ∈ (main env args).trace ∨
               Event.uiRun ui ∈ (main env args).trace) → ui = some u) := by
  constructor
  · intro hui
    rw [main_unmatched env args st hparse hlock hsetup hui]
    refine ⟨rfl, ?_⟩
    intro e he
    simp only [List.mem_append, defaults, sessionStart, List.mem_cons, List.mem_singleton,
      List.not_mem_nil, or_false, List.mem_map, allUis] at he
    rcases he with ((rfl | rfl) | he) | (he | he) | he | rfl
    · exact ⟨rfl, rfl, fun _ h => by cases h⟩
    · exact ⟨rfl, rfl, fun _ h => by cases h⟩
    · obtain ⟨d, rfl⟩ := parsed_events env args st hparse e he
      exact ⟨rfl, rfl, fun _ h => by cases h⟩
    · split at he
      · simp at he; subst he; exact ⟨rfl, rfl, fun _ h => by cases h⟩
      · simp at he
    · rcases he with rfl | rfl | rfl | rfl | rfl | rfl | rfl | rfl <;>
        exact ⟨rfl, rfl, fun _ h => by cases h⟩
    · obtain ⟨x, _, rfl⟩ := he
      exact ⟨rfl, rfl, fun _ h => by cases h⟩
    · exact ⟨rfl, rfl, fun _ h => by cases h⟩
  · intro hui
    obtain ⟨u, hsel, hname⟩ := selectUi_matched env st hui
    rw [main_normal env args st hparse hlock hsetup u hsel]
    refine ⟨u, hname, ?_, ?_, ?_⟩
    · simp [runPrelude]
    · simp
    · intro ui h
      simp only [List.mem_append, List.mem_cons, List.mem_singleton, List.not_mem_nil,
        or_false] at h
      rcases h with h | h
      · rcases h with (((h | h) | h) | h) | h
        · simp only [runPrelude, List.mem_append, defaults, sessionStart, List.mem_cons,
            List.mem_singleton, List.not_mem_nil, or_false, List.mem_map, allUis] at h
          rcases h with ((h | h) | h) | (h | h) | (h | h) | h
          · cases h
          · cases h
          · obtain ⟨d, hd⟩ := parsed_events env args st hparse _ h
            cases hd
          · split at h <;> simp at h
          · simp at h
          · obtain ⟨x, _, hx⟩ := h
            cases hx
          · cases h
            rfl
          · obtain ⟨q, _, hq⟩ := h
            cases hq
        · rcases mem_startLoop _ _ _ _ h with ⟨q, hq⟩ | ⟨q, hq⟩ <;> cases hq
        · simp at h
        · rcases mem_stopLoop _ _ _ _ h with ⟨q, hq⟩ | ⟨q, hq⟩ <;> cases hq
        · simp at h
      · rcases h with (((h | h) | h) | h) | h
        · have := (runPrelude_no_runPhase env args st hparse u ⟨0, ""⟩ _ h).1
          simp [Event.isRunPhase] at this
        · rcases mem_startLoop _ _ _ _ h with ⟨q, hq⟩ | ⟨q, hq⟩ <;> cases hq
        · simp at h
          exact h
        · rcases mem_stopLoop _ _ _ _ h with ⟨q, hq⟩ | ⟨q, hq⟩ <;> cases hq
        · simp at h

theorem ui_selected_by_name_or_fatal_witness :
    (main (sampleEnv true (sampleConfig "nosuchui" "telegram_is_enabled" "1")
        (sourceProtocols "telegram") true) []).status = 1 ∧
      ∃ u, (sampleEnv true (sampleConfig "uilite" "telegram_is_enabled" "1")
          (sourceProtocols "telegram") true).uiName u = "uilite" ∧
        Event.uiRun (some u) ∈
          (main (sampleEnv true (sampleConfig "uilite" "telegram_is_enabled" "1")
            (sourceProtocols "telegram") true) []).trace :=
  ⟨((ui_selected_by_name_or_fatal
      (sampleEnv true (sampleConfig "nosuchui" "telegram_is_enabled" "1")
        (sourceProtocols "telegram") true)
      [] ⟨false, false, "/home/u/.nchat"⟩ (by decide) (by decide) (by decide)).1
      (by unfold UiMatched; decide)).1,
   by
    obtain ⟨u, h1, _, h3, _⟩ := (ui_selected_by_name_or_fatal
      (sampleEnv true (sampleConfig "uilite" "telegram_is_enabled" "1")
        (sourceProtocols "telegram") true)
      [] ⟨false, false, "/home/u/.nchat"⟩ (by decide) (by decide) (by decide)).2
      (by unfold UiMatched; decide)
    exact ⟨u, h1, h3⟩⟩

theorem countP_startLoop (config : Config) (ui : UiPtr) (ps : List Protocol) :
    (startLoop config ui ps).countP Event.isConfigSave = 0 := by
  rw [List.countP_eq_zero]
  intro e he
  rcases mem_startLoop _ _ _ _ he with ⟨q, rfl⟩ | ⟨q, rfl⟩ <;> simp [Event.isConfigSave]

theorem countP_stopLoop (config : Config) (ui : UiPtr) (ps : List Protocol) :
    (stopLoop config ui ps).countP Event.isConfigSave = 0 := by
  rw [List.countP_eq_zero]
  intro e he
  rcases mem_stopLoop _ _ _ _ he with ⟨q, rfl⟩ | ⟨q, rfl⟩ <;> simp [Event.isConfigSave]

theorem countP_runPrelude (env : Env) (args : List String) (st : ArgState)
    (hparse : parsedState env args = some st) (u : Ui) :
    (runPrelude env args st u).countP Event.isConfigSave = 0 := by
  rw [List.countP_eq_zero]
  intro e he
  have h := (runPrelude_no_runPhase env args st hparse u ⟨0, ""⟩ e he).1
  cases e <;> simp_all [Event.isConfigSave, Event.isRunPhase]

/-- C6: in a normal run (argument loop passed, lock acquired, not setup mode, a UI named as
the `ui` key says) the calls of `main` are, in order: a prelude holding no call of the
running phase; for each protocol whose `<name>_is_enabled` value is "1", in declaration
order, `Start` immediately followed by `AddProtocol` of that protocol on the selected UI;
`Run`; `Config::Save`; `Cleanup`; for each protocol whose lowercased key has the value "1",
in declaration order, `RemoveProtocol` immediately followed by `Stop` of that protocol; the
clearing of the protocol list and the final log line.  `Config::Save` is called exactly once
in the whole run and `main` returns 0. -/
theorem normal_run_call_order (env : Env) (args : List String) (st : ArgState)
    (hparse : parsedState env args = some st)
    (hlock : env.lockAcquired (sessionDir env st) = true) (hsetup : st.isSetup = false)
    (hui : UiMatched env st) :
    ∃ u pre, env.uiName u = sessionConfig env st "ui" ∧
      (main env args).trace =
        pre ++
        startPairs (some u) (env.allProtocols.filter
          (fun p => decide (sessionConfig env st (p.name ++ "_is_enabled") = "1"))) ++
        [Event.uiRun (some u), Event.configSave (sessionConfigPath env st),
         Event.uiCleanup (some u)] ++
        stopPairs (some u) (env.allProtocols.filter
          (fun p => decide (sessionConfig env st (toLower (p.name ++ "_is_enabled")) = "1"))) ++
        [Event.protocolsClear, Event.logInfo "exiting"] ∧
      (∀ e ∈ pre, e.isRunPhase = false) ∧
      (main env args).trace.countP Event.isConfigSave = 1 ∧
      (main env args).status = 0 := by
  obtain ⟨u, hsel, hname⟩ := selectUi_matched env st hui
  rw [main_normal env args st hparse hlock hsetup u hsel]
  refine ⟨u, runPrelude env args st u, hname, ?_, ?_, ?_, rfl⟩
  · simp only [startLoop_eq_startPairs, stopLoop_eq_stopPairs]
  · intro e he
    exact (runPrelude_no_runPhase env args st hparse u ⟨0, ""⟩ e he).1
  · simp only [List.countP_append, countP_startLoop, countP_stopLoop,
      countP_runPrelude env args st hparse u]
    simp [List.countP_cons, Event.isConfigSave]

theorem normal_run_call_order_witness :
    ∃ u pre, (sampleEnv true (sampleConfig "uidefault" "telegram_is_enabled" "1")
        (sourceProtocols "telegram") true).uiName u = "uidefault" ∧
      (main (sampleEnv true (sampleConfig "uidefault" "telegram_is_enabled" "1")
        (sourceProtocols "telegram") true) ["-e"]).trace =
        pre ++
        [Event.protocolStart ⟨0, "telegram"⟩, Event.uiAddProtocol (some u) ⟨0, "telegram"⟩] ++
        [Event.uiRun (some u), Event.configSave "/home/u/.nchat/main.conf",
         Event.uiCleanup (some u)] ++
        [Event.uiRemoveProtocol (some u) ⟨0, "telegram"⟩, Event.protocolStop ⟨0, "telegram"⟩] ++
        [Event.protocolsClear, Event.logInfo "exiting"] ∧
      (∀ e ∈ pre, e.isRunPhase = false) ∧
      (main (sampleEnv true (sampleConfig "uidefault" "telegram_is_enabled" "1")
        (sourceProtocols "telegram") true) ["-e"]).trace.countP Event.isConfigSave = 1 ∧
      (main (sampleEnv true (sampleConfig "uidefault" "telegram_is_enabled" "1")
        (sourceProtocols "telegram") true) ["-e"]).status = 0 :=
  normal_run_call_order
    (sampleEnv true (sampleConfig "uidefault" "telegram_is_enabled" "1")
      (sourceProtocols "telegram") true)
    ["-e"] ⟨false, true, "/home/u/.nchat"⟩ (by decide) (by decide) (by decide)
    (by unfold UiMatched; decide)

theorem lifecycleCalls_append (p : Protocol) (a b : List Event) :
    lifecycleCalls p (a ++ b) = lifecycleCalls p a ++ lifecycleCalls p b := by
  simp [lifecycleCalls, List.filterMap_append]

theorem lifecycleCalls_eq_nil (p : Protocol) (t : List Event)
    (h : ∀ e ∈ t, lifecycleOf p e = none) : lifecycleCalls p t = [] := by
  induction t with
  | nil => rfl
  | cons e t ih =>
    have he := h e (List.mem_cons_self _ _)
    have ht := ih (fun x hx => h x (List.mem_cons_of_mem _ hx))
    unfold lifecycleCalls at ht ⊢
    rw [List.filterMap_cons, he]
    exact ht

theorem lifecycleCalls_startLoop (config : Config) (ui : UiPtr) (p : Protocol)
    (ps : List Protocol) (hnd : ps.Nodup) :
    lifecycleCalls p (startLoop config ui ps) =
      if p ∈ ps ∧ config (p.name ++ "_is_enabled") = "1" then [Lifecycle.Start] else [] := by
  induction ps with
  | nil => simp [startLoop, lifecycleCalls]
  | cons q qs ih =>
    have hq : q ∉ qs := (List.nodup_cons.mp hnd).1
    have ih2 := ih (List.nodup_cons.mp hnd).2
    simp only [startLoop, lifecycleCalls_append, ih2]
    by_cases hpq : q = p
    · subst hpq
      by_cases hc : config (q.name ++ "_is_enabled") = "1"
      · simp [hc, hq, lifecycleCalls, lifecycleOf]
      · simp [hc, lifecycleCalls]
    · have hpq2 : ¬ p = q := fun h => hpq h.symm
      by_cases hc : config (q.name ++ "_is_enabled") = "1"
      · simp [hc, hpq, hpq2, lifecycleCalls, lifecycleOf]
      · simp [hc, hpq2, lifecycleCalls]

theorem lifecycleCalls_stopLoop (config : Config) (ui : UiPtr) (p : Protocol)
    (ps : List Protocol) (hnd : ps.Nodup) :
    lifecycleCalls p (stopLoop config ui ps) =
      if p ∈ ps ∧ config (toLower (p.name ++ "_is_enabled")) = "1" then [Lifecycle.Stop]
      else [] := by
  induction ps with
  | nil => simp [stopLoop, lifecycleCalls]
  | cons q qs ih =>
    have hq : q ∉ qs := (List.nodup_cons.mp hnd).1
    have ih2 := ih (List.nodup_cons.mp hnd).2
    simp only [stopLoop, lifecycleCalls_append, ih2]
    by_cases hpq : q = p
    · subst hpq
      by_cases hc : config (toLower (q.name ++ "_is_enabled")) = "1"
      · simp [hc, hq, lifecycleCalls, lifecycleOf]
      · simp [hc, lifecycleCalls]
    · have hpq2 : ¬ p = q := fun h => hpq h.symm
      by_cases hc : config (toLower (q.name ++ "_is_enabled")) = "1"
      · simp [hc, hpq, hpq2, lifecycleCalls, lifecycleOf]
      · simp [hc, hpq2, lifecycleCalls]

theorem lifecycleCalls_main (env : Env) (args : List String) (st : ArgState)
    (hparse : parsedState env args = some st)
    (hlock : env.lockAcquired (sessionDir env st) = true) (hsetup : st.isSetup = false)
    (hui : UiMatched env st) (hnd : env.allProtocols.Nodup) (p : Protocol) :
    lifecycleCalls p (main env args).trace =
      (if p ∈ env.allProtocols ∧ sessionConfig env st (p.name ++ "_is_enabled") = "1"
        then [Lifecycle.Start] else []) ++
      (if p ∈ env.allProtocols ∧
          sessionConfig env st (toLower (p.name ++ "_is_enabled")) = "1"
        then [Lifecycle.Stop] else []) := by
  obtain ⟨u, hsel, _⟩ := selectUi_matched env st hui
  rw [main_normal env args st hparse hlock hsetup u hsel]
  simp only [lifecycleCalls_append, lifecycleCalls_startLoop _ _ _ _ hnd,
    lifecycleCalls_stopLoop _ _ _ _ hnd]
  rw [lifecycleCalls_eq_nil p (runPrelude env args st u)
    (fun e he => (runPrelude_no_runPhase env args st hparse u p e he).2)]
  simp [lifecycleCalls, lifecycleOf]

/-- C1: in a normal run (argument loop passed, lock acquired, not setup mode, a UI named as
the `ui` key says) over a list of distinct protocols for each of which ASCII lowercasing
leaves `<name>_is_enabled` unchanged, the lifecycle calls a protocol receives are exactly
`Start` then `Stop` when it is in the list and `config.Get` of `<name>_is_enabled` is "1",
and none at all otherwise. -/
theorem enabled_protocols_start_then_stop (env : Env) (args : List String) (st : ArgState)
    (hparse : parsedState env args = some st)
    (hlock : env.lockAcquired (sessionDir env st) = true) (hsetup : st.isSetup = false)
    (hui : UiMatched env st) (hnd : env.allProtocols.Nodup)
    (hlower : ∀ q ∈ env.allProtocols,
      toLower (q.name ++ "_is_enabled") = q.name ++ "_is_enabled")
    (p : Protocol) :
    lifecycleCalls p (main env args).trace =
      if p ∈ env.allProtocols ∧ sessionConfig env st (p.name ++ "_is_enabled") = "1"
      then [Lifecycle.Start, Lifecycle.Stop] else [] := by
  rw [lifecycleCalls_main env args st hparse hlock hsetup hui hnd p]
  by_cases hp : p ∈ env.allProtocols
  · rw [hlower p hp]
    by_cases hc : sessionConfig env st (p.name ++ "_is_enabled") = "1"
    · simp [hp, hc]
    · simp [hc]
  · simp [hp]

theorem enabled_protocols_start_then_stop_witness :
    lifecycleCalls ⟨0, "telegram"⟩
        (main (sampleEnv true (sampleConfig "uidefault" "telegram_is_enabled" "1")
          [⟨0, "telegram"⟩, ⟨1, "signal"⟩] true) []).trace
        = [Lifecycle.Start, Lifecycle.Stop] ∧
      lifecycleCalls ⟨1, "signal"⟩
        (main (sampleEnv true (sampleConfig "uidefault" "telegram_is_enabled" "1")
          [⟨0, "telegram"⟩, ⟨1, "signal"⟩] true) []).trace
        = [] :=
  ⟨enabled_protocols_start_then_stop
      (sampleEnv true (sampleConfig "uidefault" "telegram_is_enabled" "1")
        [⟨0, "telegram"⟩, ⟨1, "signal"⟩] true)
      [] ⟨false, false, "/home/u/.nchat"⟩ (by decide) (by decide) (by decide)
      (by unfold UiMatched; decide) (by decide) (by decide) ⟨0, "telegram"⟩,
   enabled_protocols_start_then_stop
      (sampleEnv true (sampleConfig "uidefault" "telegram_is_enabled" "1")
        [⟨0, "telegram"⟩, ⟨1, "signal"⟩] true)
      [] ⟨false, false, "/home/u/.nchat"⟩ (by decide) (by decide) (by decide)
      (by unfold UiMatched; decide) (by decide) (by decide) ⟨1, "signal"⟩⟩

/-- C10: the start loop reads the key `<name>_is_enabled` and the stop loop reads its ASCII
lowercasing, and for the name `Telegram` the two keys differ: with a store that sets only
`Telegram_is_enabled` to "1" the protocol receives `Start` and never `Stop` (nor
`RemoveProtocol`), and with a store that sets only `telegram_is_enabled` to "1" it receives
`RemoveProtocol` and `Stop` without ever having received `Start` (nor `AddProtocol`); both
runs return 0. -/
theorem start_and_stop_keys_differ :
    toLower ("Telegram" ++ "_is_enabled") ≠ "Telegram" ++ "_is_enabled" ∧
    (∃ (name : String) (config : Config),
      (main (sampleEnv true config (sourceProtocols name) true) []).status = 0 ∧
      lifecycleCalls ⟨0, name⟩
        (main (sampleEnv true config (sourceProtocols name) true) []).trace
        = [Lifecycle.Start] ∧
      Event.uiRemoveProtocol (some Ui.UiDefault) ⟨0, name⟩ ∉
        (main (sampleEnv true config (sourceProtocols name) true) []).trace) ∧
    (∃ (name : String) (config : Config),
      (main (sampleEnv true config (sourceProtocols name) true) []).status = 0 ∧
      lifecycleCalls ⟨0, name⟩
        (main (sampleEnv true config (sourceProtocols name) true) []).trace
        = [Lifecycle.Stop] ∧
      Event.uiRemoveProtocol (some Ui.UiDefault) ⟨0, name⟩ ∈
        (main (sampleEnv true config (sourceProtocols name) true) []).trace ∧
      Event.uiAddProtocol (some Ui.UiDefault) ⟨0, name⟩ ∉
        (main (sampleEnv true config (sourceProtocols name) true) []).trace) := by
  refine ⟨by decide, ?_, ?_⟩
  · exact ⟨"Telegram", sampleConfig "uidefault" "Telegram_is_enabled" "1",
      by decide, by decide, by decide⟩
  · exact ⟨"Telegram", sampleConfig "uidefault" "telegram_is_enabled" "1",
      by decide, by decide, by decide, by decide⟩

theorem stdoutTexts_append (a b : List Event) :
    stdoutTexts (a ++ b) = stdoutTexts a ++ stdoutTexts b := by
  induction a with
  | nil => rfl
  | cons e a ih => cases e <;> simp [stdoutTexts, ih]

theorem stdoutTexts_eq_nil (t : List Event) (h : ∀ e ∈ t, e.isStdout = false) :
    stdoutTexts t = [] := by
  induction t with
  | nil => rfl
  | cons e t ih =>
    have he := h e (List.mem_cons_self _ _)
    have ht := ih (fun x hx => h x (List.mem_cons_of_mem _ hx))
    cases e <;> simp_all [stdoutTexts, Event.isStdout]

theorem stdoutTexts_parsed (env : Env) (args : List String) (st : ArgState)
    (hparse : parsedState env args = some st) :
    stdoutTexts (argLoop env args (initialArgState env)).1 = [] := by
  apply stdoutTexts_eq_nil
  intro e he
  obtain ⟨d, rfl⟩ := parsed_events env args st hparse e he
  rfl

theorem lineCount_lockErrorText (dir : String) :
    lineCount (lockErrorText dir) = lineCount dir + 2 := by
  have h1 : lineCount "error: unable to acquire lock for " = 0 := by decide
  have h2 : lineCount "\n" = 1 := by decide
  have h3 : lineCount "       only one nchat session per config dir is supported.\n" = 1 := by
    decide
  unfold lineCount at h1 h2 h3 ⊢
  simp only [lockErrorText, String.data_append, List.countP_append, h1, h2, h3]
  omega

/-- C8 (counterexample): with the lock acquired and the `ui` key set to `nosuchui`, which
names neither UI, `main` returns 1 and writes nothing at all to `std::cout`; in particular no
one-line text is written to the terminal before logging is activated. -/
theorem unknown_ui_prints_no_terminal_diagnostic :
    ¬ UiMatched (sampleEnv true (sampleConfig "nosuchui" "telegram_is_enabled" "1")
        (sourceProtocols "telegram") true) ⟨false, false, "/home/u/.nchat"⟩ ∧
    (main (sampleEnv true (sampleConfig "nosuchui" "telegram_is_enabled" "1")
        (sourceProtocols "telegram") true) []).status = 1 ∧
    stdoutTexts (main (sampleEnv true (sampleConfig "nosuchui" "telegram_is_enabled" "1")
        (sourceProtocols "telegram") true) []).trace = [] ∧
    ¬ ∃ text ∈ terminalDiagnostics
          (main (sampleEnv true (sampleConfig "nosuchui" "telegram_is_enabled" "1")
            (sourceProtocols "telegram") true) []).trace,
        lineCount text = 1 := by
  refine ⟨by unfold UiMatched; decide, by decide, by decide, by decide⟩

/-- C8 (amended): after the argument loop, (a) when the lock is not acquired `main` returns
1, its only write to `std::cout` is the lock message, a text of at least two lines, written
in a run that never calls `Log::SetPath` or `Util::InitStdErrRedirect`; (b) when the lock is
acquired, outside setup mode, and no UI is named as the `ui` key says, `main` returns 1
having written nothing to `std::cout`: its last call is `LOG_ERROR` with the text
`failed loading ui "<value>"`, made after `Log::SetPath` and `Util::InitStdErrRedirect`. -/
theorem fatal_startup_diagnostics (env : Env) (args : List String) (st : ArgState)
    (hparse : parsedState env args = some st) :
    (env.lockAcquired (sessionDir env st) = false →
      (main env args).status = 1 ∧
        stdoutTexts (main env args).trace = [lockErrorText (sessionDir env st)] ∧
        terminalDiagnostics (main env args).trace = [lockErrorText (sessionDir env st)] ∧
        lineCount (lockErrorText (sessionDir env st)) = lineCount (sessionDir env st) + 2 ∧
        ∀ e ∈ (main env args).trace, e.activatesLogging = false) ∧
    (env.lockAcquired (sessionDir env st) = true → st.isSetup = false → ¬ UiMatched env st →
      (main env args).status = 1 ∧
        stdoutTexts (main env args).trace = [] ∧
        ∃ pre, (main env args).trace =
            pre ++ [Event.logError ("failed loading ui \"" ++ sessionConfig env st "ui" ++ "\"")] ∧
          Event.logSetPath (sessionDir env st ++ "main.log") ∈ pre ∧
          Event.initStdErrRedirect (sessionDir env st ++ "main.log") ∈ pre) := by
  constructor
  · intro hlock
    have hnolog : ∀ e ∈ (main env args).trace, e.activatesLogging = false := by
      intro e he
      have h := (lock_failure_aux env args st hparse hlock).2 e he
      cases e <;> simp_all [Event.isSessionEffect, Event.activatesLogging]
    have hstd : stdoutTexts (main env args).trace = [lockErrorText (sessionDir env st)] := by
      rw [main_of_parsed env args st hparse, afterArgs_unlocked env st hlock]
      simp only [Outcome.after, stdoutTexts_append, stdoutTexts_parsed env args st hparse,
        defaults]
      cases env.pathExists (sessionDir env st) <;> simp [stdoutTexts]
    refine ⟨(lock_failure_aux env args st hparse hlock).1, hstd, ?_,
      lineCount_lockErrorText _, hnolog⟩
    unfold terminalDiagnostics
    rw [List.takeWhile_eq_self_iff.mpr (by
      intro e he
      simp [hnolog e he])]
    exact hstd
  · intro hlock hsetup hui
    rw [main_unmatched env args st hparse hlock hsetup hui]
    refine ⟨rfl, ?_, ?_⟩
    · simp only [stdoutTexts_append, stdoutTexts_parsed env args st hparse, defaults,
        sessionStart, allUis]
      cases env.pathExists (sessionDir env st) <;> simp [stdoutTexts]
    · refine ⟨(defaults env ++ (argLoop env args (initialArgState env)).1) ++
          (((if !env.pathExists (sessionDir env st) then [Event.makedirs (sessionDir env st)]
              else []) ++ sessionStart env st) ++ allUis.map Event.uiNew), ?_, ?_, ?_⟩
      · simp only [List.append_assoc]
      · simp [sessionStart]
      · simp [sessionStart]

theorem fatal_startup_diagnostics_witness :
    ((main (sampleEnv false (sampleConfig "uidefault" "telegram_is_enabled" "1")
          (sourceProtocols "telegram") true) []).status = 1 ∧
      stdoutTexts (main (sampleEnv false (sampleConfig "uidefault" "telegram_is_enabled" "1")
          (sourceProtocols "telegram") true) []).trace = [lockErrorText "/home/u/.nchat/"]) ∧
    ((main (sampleEnv true (sampleConfig "nosuchui" "telegram_is_enabled" "1")
          (sourceProtocols "telegram") true) []).status = 1 ∧
      stdoutTexts (main (sampleEnv true (sampleConfig "nosuchui" "telegram_is_enabled" "1")
          (sourceProtocols "telegram") true) []).trace = []) :=
  ⟨by
    have h := (fatal_startup_diagnostics
      (sampleEnv false (sampleConfig "uidefault" "telegram_is_enabled" "1")
        (sourceProtocols "telegram") true)
      [] ⟨false, false, "/home/u/.nchat"⟩ (by decide)).1 (by decide)
    exact ⟨h.1, h.2.1⟩,
   by
    have h := (fatal_startup_diagnostics
      (sampleEnv true (sampleConfig "nosuchui" "telegram_is_enabled" "1")
        (sourceProtocols "telegram") true)
      [] ⟨false, false, "/home/u/.nchat"⟩ (by decide)).2 (by decide) (by decide)
      (by unfold UiMatched; decide)
    exact ⟨h.1, h.2.1⟩⟩

end Nchat
